import Mathlib

/-
Verification of the Buyee scraper/bidder repository.

The repository drives a headless browser; every interaction with the
browser, the DOM and the file system is modelled as an explicit
environment value (which elements exist, which navigations succeed,
which URLs the pages land on, the contents of the persisted JSON
files).  The control flow of each JavaScript function is translated
branch by branch; a thrown-and-caught JavaScript error becomes the
corresponding early-return value of the Lean function.

The repository files contain several concatenated revisions of the
same module; where the revisions of a function differ, each revision
is embedded separately and suffixed with the file and revision it
comes from (for example placeBid_p0v1 is the first revision of
placeBid in src/unnamed/part_000).
-/

deriving instance DecidableEq for Except

namespace Buyee

/-! ### String helpers (substring search, the two regexes) -/

/-- headMatch pat cs: pat is an initial segment of cs. -/
def headMatch : List Char → List Char → Bool
  | [], _ => true
  | _ :: _, [] => false
  | p :: ps, c :: cs => p == c && headMatch ps cs

/-- hasSub pat cs: pat occurs contiguously somewhere in cs. -/
def hasSub (pat : List Char) : List Char → Bool
  | [] => headMatch pat []
  | c :: cs => headMatch pat (c :: cs) || hasSub pat cs

/-- JavaScript String.prototype.includes. -/
def strHas (s pat : String) : Bool := hasSub pat.data s.data

/-- Lower-case an ASCII character, the identity elsewhere. -/
def lowerCh (c : Char) : Char :=
  if 'A' ≤ c ∧ c ≤ 'Z' then Char.ofNat (c.toNat + 32) else c

/-- Character class [a-z0-9] under the /i flag. -/
def isIdChar (c : Char) : Bool :=
  let d := lowerCh c
  (decide ('a' ≤ d) && decide (d ≤ 'z')) || (decide ('0' ≤ c) && decide (c ≤ '9'))

/-- Match a literal pattern case-insensitively at the head of cs,
returning the remainder. -/
def litAt : List Char → List Char → Option (List Char)
  | [], rest => some rest
  | _ :: _, [] => none
  | p :: ps, c :: cs => if lowerCh c = p then litAt ps cs else none

/-- Maximal run of [a-z0-9] characters at the head. -/
def takeIdRun : List Char → List Char
  | [] => []
  | c :: cs => if isIdChar c then c :: takeIdRun cs else []

/-- Try the regex auction\/([a-z0-9]+) (with /i) at this position. -/
def auctionAt (cs : List Char) : Option (List Char) :=
  match litAt "auction/".data cs with
  | none => none
  | some rest =>
    let run := takeIdRun rest
    if run.isEmpty then none else some run

/-- Leftmost match of /auction\/([a-z0-9]+)/i, returning the capture. -/
def scanAuction : List Char → Option (List Char)
  | [] => none
  | c :: cs =>
    match auctionAt (c :: cs) with
    | some run => some run
    | none => scanAuction cs

/-- Try the regex \/([a-z0-9]+)\? (with /i) at this position. -/
def slashQAt (cs : List Char) : Option (List Char) :=
  match cs with
  | '/' :: rest =>
    let run := takeIdRun rest
    if run.isEmpty then none
    else if (rest.drop run.length).head? = some '?' then some run else none
  | _ => none

/-- Leftmost match of /\/([a-z0-9]+)\?/i, returning the capture. -/
def scanSlashQ : List Char → Option (List Char)
  | [] => none
  | c :: cs =>
    match slashQAt (c :: cs) with
    | some run => some run
    | none => scanSlashQ cs

/-- productUrl.match(/auction\/([a-z0-9]+)/i): the auction id, if any. -/
def matchAuctionId (s : String) : Option String :=
  (scanAuction s.data).map List.asString

/-- productUrl.match(/auction\/([a-z0-9]+)/i) || productUrl.match(/\/([a-z0-9]+)\?/i):
the auction id extraction of the first part_000 revision of placeBid. -/
def matchFullAuctionId (s : String) : Option String :=
  match scanAuction s.data with
  | some run => some run.asString
  | none => (scanSlashQ s.data).map List.asString

/-- JavaScript String.prototype.trim (ASCII whitespace model). -/
def strTrim (s : String) : String := s.trim

/-! ### Session model and checkLoginState -/

/-- A stored cookie record, restricted to the fields the code reads. -/
structure Cookie where
  name : String
  expired : Bool
deriving DecidableEq

/-- Parsed contents of a login-state JSON file (loginData.cookies || []). -/
structure LoginData where
  cookies : List Cookie
deriving DecidableEq

/-- The three cookie names checkLoginState requires. -/
def requiredCookies : List String := ["otherbuyee", "userProfile", "userId"]

/-- checkLoginState: the durable session file is the argument; none
stands for a missing or unparseable login.json (the catch branch).
Returns whether every required cookie is present and not expired. -/
def checkLoginState (file : Option LoginData) : Bool :=
  match file with
  | none => false
  | some d =>
    requiredCookies.all fun n => d.cookies.any fun c => c.name == n && !c.expired

/-- C7: checkLoginState is a total Boolean function (it cannot throw by
construction), true exactly when the session file parses and each of the
three required cookie names is present with its expired flag unset;
missing or malformed files and missing or expired cookies give false. -/
theorem C7_theorem (file : Option LoginData) :
    checkLoginState file = true ↔
      ∃ d, file = some d ∧ ∀ n ∈ requiredCookies,
        ∃ c ∈ d.cookies, c.name = n ∧ c.expired = false := by
  cases file with
  | none => simp [checkLoginState]
  | some d =>
    simp only [checkLoginState, List.all_eq_true, List.any_eq_true,
      Bool.and_eq_true, beq_iff_eq, Bool.not_eq_true', Option.some.injEq]
    constructor
    · intro h
      exact ⟨d, rfl, fun n hn => by
        obtain ⟨c, hc, h1, h2⟩ := h n hn
        exact ⟨c, hc, h1, h2⟩⟩
    · rintro ⟨d2, rfl, h⟩
      intro n hn
      obtain ⟨c, hc, h1, h2⟩ := h n hn
      exact ⟨c, hc, h1, h2⟩

/-! ### Search engine: scrapeSearchResults (identical in every revision) -/

/-- One scraped listing, as returned inside the products array. -/
structure Product where
  title : String
  price : String
  url : String
  time_remaining : String
  images : List String
deriving DecidableEq

/-- The title anchor of a listing card: its textContent and, when the
attribute exists and is non-null, its href. -/
structure TitleEl where
  text : String
  href : Option String
deriving DecidableEq

/-- One listing card as the in-page extraction sees it.  Each field is
the resolved value of the corresponding first-match-wins selector list
(none: no element, or a null attribute chain).  evalThrows models the
page.evaluate promise rejecting for this card (the card is skipped). -/
structure Card where
  titleEl : Option TitleEl
  imgSrc : Option String
  priceText : Option String
  timeText : Option String
  evalThrows : Bool
deriving DecidableEq

/-- JavaScript imgSrc.split("?")[0]: the prefix before the first question mark. -/
def upToQuery (s : String) : String :=
  (s.data.takeWhile fun c => c != '?').asString

/-- The card-processing closure passed to pageInstance.evaluate: builds
a Product, or null (none) when the title anchor yields no truthy href. -/
def extractCard (c : Card) : Option Product :=
  if c.evalThrows then none
  else
    let title := match c.titleEl with
      | some t => strTrim t.text
      | none => "No Title"
    match (match c.titleEl with | some t => t.href | none => none) with
    | none => none
    | some u =>
      if u = "" then none
      else
        let url := if headMatch "http".data u.data then u else "https://buyee.jp" ++ u
        let price := match c.priceText with
          | some p => strTrim p
          | none => "Price Not Available"
        let timeRemaining := match c.timeText with
          | some t => if strTrim t = "" then "Time Not Available" else strTrim t
          | none => "Time Not Available"
        let images := match c.imgSrc with
          | some i => if i = "" then [] else [upToQuery i]
          | none => []
        some { title := title, price := price, url := url,
               time_remaining := timeRemaining, images := images }

/-- The regex /\/\s*(\d+)/ applied at one position of the result-count text. -/
def resultNumAt (cs : List Char) : Option (List Char) :=
  match cs with
  | '/' :: rest =>
    let rest2 := rest.dropWhile fun c => c == ' ' || c == '\t' || c == '\n' || c == '\r'
    let run := rest2.takeWhile fun c => decide ('0' ≤ c) && decide (c ≤ '9')
    if run.isEmpty then none else some run
  | _ => none

/-- Leftmost match of /\/\s*(\d+)/, returning the digit run. -/
def scanResultNum : List Char → Option (List Char)
  | [] => none
  | c :: cs =>
    match resultNumAt (c :: cs) with
    | some run => some run
    | none => scanResultNum cs

/-- Decimal value of a digit run (parseInt(digits, 10)). -/
def digitsToNat (cs : List Char) : Nat :=
  cs.foldl (fun n c => n * 10 + (c.toNat - 48)) 0

/-- totalProductsText.match(/\/\s*(\d+)/) followed by parseInt. -/
def parseResultNum (s : String) : Option Nat :=
  (scanResultNum s.data).map digitsToNat

/-- Environment of one scrapeSearchResults call: which browser steps
fail, what the page shows.  resultNumText is the innerText of the
.result-num element (none: element absent, or innerText threw — both
leave the count at 0).  primaryCards is the .itemCard wait (none: it
timed out); the two alternative selectors follow. -/
structure SearchEnv where
  setupFails : Bool
  gotoFails : Bool
  resultNumText : Option String
  noResultsPresent : Bool
  primaryCards : Option (List Card)
  altThumbCards : Option (List Card)
  altNameCards : Option (List Card)
deriving DecidableEq

/-- The selector-fallback loop: .itemCard, then .g-thumbnail, then
.itemCard__itemName; an alternative with zero elements lets the loop
continue to the next selector. -/
def resolveItems (env : SearchEnv) : List Card :=
  match env.primaryCards with
  | some l => l
  | none =>
    match env.altThumbCards with
    | some l =>
      if l.isEmpty then
        match env.altNameCards with
        | some l2 => l2
        | none => []
      else l
    | none =>
      match env.altNameCards with
      | some l2 => l2
      | none => []

/-- The {products, totalProducts, currentPage} object scrapeSearchResults returns. -/
structure SearchResult where
  products : List Product
  totalProducts : Nat
  currentPage : Nat
deriving DecidableEq

/-- scrapeSearchResults(term, minPrice, maxPrice, page).  The term and
price bounds only shape the query URL, so they do not influence the
modelled result; any exception inside the try block returns the empty
shape (the catch branch), and the no-results marker short-circuits. -/
def scrapeSearchResults (env : SearchEnv) (term minPrice maxPrice : String)
    (page : Nat) : SearchResult :=
  if env.setupFails then { products := [], totalProducts := 0, currentPage := page }
  else if env.gotoFails then { products := [], totalProducts := 0, currentPage := page }
  else
    let totalProducts : Nat :=
      if page = 1 then
        match env.resultNumText with
        | some s => (parseResultNum s).getD 0
        | none => 0
      else 0
    if env.noResultsPresent then
      { products := [], totalProducts := 0, currentPage := page }
    else
      let items := resolveItems env
      let products := items.filterMap extractCard
      { products := products,
        totalProducts := if totalProducts = 0 then products.length else totalProducts,
        currentPage := page }

/-- C5: scrapeSearchResults is total (the catch branch turns every
internal failure into a value), always reports the requested page as
currentPage, returns the empty-result shape whenever the no-results
marker is present, and returns the empty-result shape on every
failure path. -/
theorem C5_theorem (env : SearchEnv) (term minPrice maxPrice : String) (page : Nat) :
    (scrapeSearchResults env term minPrice maxPrice page).currentPage = page
    ∧ (env.noResultsPresent = true →
        scrapeSearchResults env term minPrice maxPrice page =
          { products := [], totalProducts := 0, currentPage := page })
    ∧ ((env.setupFails = true ∨ env.gotoFails = true) →
        scrapeSearchResults env term minPrice maxPrice page =
          { products := [], totalProducts := 0, currentPage := page }) := by
  refine ⟨?_, ?_, ?_⟩
  · unfold scrapeSearchResults
    repeat' split
    all_goals rfl
  · intro h
    unfold scrapeSearchResults
    repeat' split
    all_goals simp_all
  · rintro (h | h) <;> simp [scrapeSearchResults, h]

/-- Witness for C5 at a concrete environment with the no-results marker. -/
theorem C5_witness :
    (scrapeSearchResults
        { setupFails := false, gotoFails := false, resultNumText := none,
          noResultsPresent := true, primaryCards := none,
          altThumbCards := none, altNameCards := none } "pokemon" "" "" 4).currentPage = 4
    ∧ scrapeSearchResults
        { setupFails := false, gotoFails := false, resultNumText := none,
          noResultsPresent := true, primaryCards := none,
          altThumbCards := none, altNameCards := none } "pokemon" "" "" 4 =
        { products := [], totalProducts := 0, currentPage := 4 } :=
  ⟨(C5_theorem _ "pokemon" "" "" 4).1, (C5_theorem _ "pokemon" "" "" 4).2.1 rfl⟩

/-- A listing card whose title anchor has a relative href. -/
def cardA : Card :=
  { titleEl := some { text := "Card One", href := some "/item/auction/a100" },
    imgSrc := some "https://img.buyee.jp/x.jpg?w=3",
    priceText := some " 1000 yen ", timeText := some "2 days", evalThrows := false }

/-- A listing card whose title anchor has an absolute href. -/
def cardB : Card :=
  { titleEl := some { text := "Card Two", href := some "https://buyee.jp/item/auction/b200" },
    imgSrc := none, priceText := none, timeText := none, evalThrows := false }

/-- A first-page environment whose .result-num text has no parseable
count but whose page shows two listing cards. -/
def envC6 : SearchEnv :=
  { setupFails := false, gotoFails := false, resultNumText := some "12 hits",
    noResultsPresent := false, primaryCards := some [cardA, cardB],
    altThumbCards := none, altNameCards := none }

/-- C6 counterexample: on a first-page call where the result-count text
parses to nothing, with two listing cards found, scrapeSearchResults
reports totalProducts = 2 (the card count), not 0 as claimed. -/
theorem C6_counterexample :
    parseResultNum "12 hits" = none
    ∧ (scrapeSearchResults envC6 "figure" "" "" 1).products.length = 2
    ∧ (scrapeSearchResults envC6 "figure" "" "" 1).totalProducts = 2 := by
  refine ⟨rfl, ?_, ?_⟩ <;> rfl

/-- C6 amended: when the first-page result-count element is present but
its text has no parseable count, the call does not error and the
returned totalProducts falls back to the number of scraped products
(totalProducts || products.length), hence it is 0 only when no
products were scraped. -/
theorem C6_amended (env : SearchEnv) (term minPrice maxPrice s : String)
    (hs : env.resultNumText = some s) (hp : parseResultNum s = none) :
    (scrapeSearchResults env term minPrice maxPrice 1).totalProducts =
      (scrapeSearchResults env term minPrice maxPrice 1).products.length := by
  unfold scrapeSearchResults
  rw [hs]
  simp only [hp, Option.getD_none]
  repeat' split
  all_goals simp_all

/-- Witness for C6 amended at the concrete environment above. -/
theorem C6_amended_witness :
    (scrapeSearchResults envC6 "figure" "" "" 1).totalProducts =
      (scrapeSearchResults envC6 "figure" "" "" 1).products.length :=
  C6_amended envC6 "figure" "" "" "12 hits" rfl rfl

/-! ### Session manager: login, refreshLoginSession, submitTwoFactorCode -/

/-- The two session files the scraper persists. -/
structure FsState where
  loginFile : Option LoginData
  tempFile : Option LoginData
deriving DecidableEq

/-- Environment of one login call: whether each browser step succeeds,
the URL after the post-submit navigation, and the session state the
context would persist. -/
structure LoginEnv where
  gotoOk : Bool
  fillOk : Bool
  navOk : Bool
  postLoginUrl : String
  sessionState : LoginData
deriving DecidableEq

/-- The value login resolves with. -/
structure LoginResult where
  success : Bool
  requiresTwoFactor : Bool
deriving DecidableEq

/-- login(username, password).  It first unlinks login.json when
present, then navigates, fills the form, submits and waits; a failure
at any of those steps rethrows (the catch branch).  Landing on the
/signup/twoFactor page persists temp_login.json and reports the
two-factor signal; landing elsewhere persists login.json. -/
def login (fs : FsState) (env : LoginEnv) (username password : String) :
    Except String LoginResult × FsState :=
  let fs1 : FsState := { fs with loginFile := none }
  if !env.gotoOk then (.error "login page navigation failed", fs1)
  else if !env.fillOk then (.error "filling the login form failed", fs1)
  else if !env.navOk then (.error "navigation after submit timed out", fs1)
  else if strHas env.postLoginUrl "/signup/twoFactor" then
    (.ok { success := false, requiresTwoFactor := true },
     { fs1 with tempFile := some env.sessionState })
  else
    (.ok { success := true, requiresTwoFactor := false },
     { fs1 with loginFile := some env.sessionState })

/-- C10: login clears login.json before authenticating, so a call that
throws leaves no durable session, a call that ends in the two-factor
signal leaves no durable session either, and in every case the durable
session afterwards is either absent or the freshly captured state —
the previous session is never restored. -/
theorem C10_theorem (fs : FsState) (env : LoginEnv) (username password : String) :
    (∀ e, (login fs env username password).1 = .error e →
        (login fs env username password).2.loginFile = none)
    ∧ (∀ r, (login fs env username password).1 = .ok r → r.requiresTwoFactor = true →
        (login fs env username password).2.loginFile = none)
    ∧ ((login fs env username password).2.loginFile = none
        ∨ (login fs env username password).2.loginFile = some env.sessionState) := by
  unfold login
  refine ⟨?_, ?_, ?_⟩
  · intro e he
    revert he
    repeat' split
    all_goals intro he
    all_goals simp_all
  · intro r hr htf
    revert hr
    repeat' split
    all_goals intro hr
    all_goals simp_all
    all_goals (cases hr; simp_all)
  · repeat' split
    all_goals simp

/-- Witness for C10: a login whose post-submit navigation times out,
starting from a state that held a durable session, ends with none. -/
theorem C10_witness :
    (login { loginFile := some { cookies := [{ name := "userId", expired := false }] },
             tempFile := none }
           { gotoOk := true, fillOk := true, navOk := false, postLoginUrl := "",
             sessionState := { cookies := [] } }
           "user@example.com" "pw").2.loginFile = none :=
  (C10_theorem _ _ "user@example.com" "pw").1
    "navigation after submit timed out" (by decide)

/-- Environment of one submitTwoFactorCode call.  tempLogin is the
parsed temp_login.json (none: missing or unreadable, which throws the
descriptive error before anything else).  errorFrame is none when the
#error-frame element is absent (evaluating on null throws), otherwise
its visibility. -/
structure TwoFAEnv where
  tempLogin : Option LoginData
  gotoOk : Bool
  inputsOk : Bool
  errorFrame : Option Bool
  navOk : Bool
  postUrl : String
  sessionState : LoginData
deriving DecidableEq

/-- The address of the two-factor challenge page. -/
def twoFactorUrl : String := "https://buyee.jp/signup/twoFactor"

/-- submitTwoFactorCode(twoFactorCode).  Returns the thrown error or
success, the resulting session files, and the list of page.goto
navigations issued, in order.  Note the navigation to the challenge
page happens before the six-character length check. -/
def submitTwoFactorCode (fs : FsState) (env : TwoFAEnv) (code : String) :
    Except String Unit × FsState × List String :=
  match env.tempLogin with
  | none => (.error "No temporary login state found. Please log in again.", fs, [])
  | some _ =>
    if !env.gotoOk then
      (.error "navigation to the two-factor page failed", fs, [twoFactorUrl])
    else if code.length ≠ 6 then
      (.error "Two-factor code must be exactly 6 digits", fs, [twoFactorUrl])
    else if !env.inputsOk then
      (.error "digit input selector timed out", fs, [twoFactorUrl])
    else
      match env.errorFrame with
      | none => (.error "cannot evaluate on a null error frame", fs, [twoFactorUrl])
      | some true => (.error "Invalid two-factor code", fs, [twoFactorUrl])
      | some false =>
        if !env.navOk then
          (.error "navigation after the code entry timed out", fs, [twoFactorUrl])
        else if strHas env.postUrl "twoFactor" then
          (.error "Still on 2FA page after code entry", fs, [twoFactorUrl])
        else
          (.ok (), { fs with loginFile := some env.sessionState, tempFile := none },
           [twoFactorUrl])

/-- C4 counterexample: with a loaded temporary session and a working
page, the five-character code "12345" is rejected with the length
error, yet the navigation log already contains the goto to the
two-factor page — the wrong-length check does not precede the first
page.goto. -/
theorem C4_counterexample :
    submitTwoFactorCode
        { loginFile := none, tempFile := some { cookies := [] } }
        { tempLogin := some { cookies := [] }, gotoOk := true, inputsOk := true,
          errorFrame := some false, navOk := true, postUrl := "https://buyee.jp/",
          sessionState := { cookies := [] } }
        "12345" =
      (.error "Two-factor code must be exactly 6 digits",
       { loginFile := none, tempFile := some { cookies := [] } },
       [twoFactorUrl])
    ∧ [twoFactorUrl] ≠ ([] : List String) := by
  exact ⟨by decide, by decide⟩

/-- C4 amended: a code whose length is not exactly 6 characters makes
submitTwoFactorCode fail with the descriptive length error before any
digit is filled and before the session files change, but only after
the initial navigation to the two-factor page — exactly one page.goto
has been issued when the check fires. -/
theorem C4_amended (fs : FsState) (env : TwoFAEnv) (code : String) (d : LoginData)
    (ht : env.tempLogin = some d) (hg : env.gotoOk = true) (hl : code.length ≠ 6) :
    submitTwoFactorCode fs env code =
      (.error "Two-factor code must be exactly 6 digits", fs, [twoFactorUrl]) := by
  unfold submitTwoFactorCode
  rw [ht, hg]
  simp [hl]

/-- Witness for C4 amended at the concrete five-character code. -/
theorem C4_amended_witness :
    submitTwoFactorCode
        { loginFile := none, tempFile := some { cookies := [] } }
        { tempLogin := some { cookies := [] }, gotoOk := true, inputsOk := false,
          errorFrame := none, navOk := false, postUrl := "",
          sessionState := { cookies := [] } }
        "1234567" =
      (.error "Two-factor code must be exactly 6 digits",
       { loginFile := none, tempFile := some { cookies := [] } },
       [twoFactorUrl]) :=
  C4_amended _ _ "1234567" { cookies := [] } rfl rfl (by decide)

/-! ### API layer: the POST /load-more handlers of the two app.js revisions -/

/-- One search term of a search context ({term, minPrice, maxPrice}). -/
structure SearchTerm where
  term : String
  minPrice : String
  maxPrice : String
deriving DecidableEq

/-- The persisted search-context file. -/
structure SearchContext where
  terms : List SearchTerm
  currentTermIndex : Nat
  currentPage : Nat
  results : List Product
  totalResults : Nat
deriving DecidableEq

/-- Outcome of a load-more request: the 404 branch, a caught error
turned into a 500 response, or the success payload together with the
context written back to disk. -/
inductive LoadMoreResult where
  | notFound
  | serverError (msg : String)
  | ok (results : List Product) (totalResults : Nat) (currentTerm : String)
       (currentPage : Nat) (newCtx : SearchContext)
deriving DecidableEq

/-- HTTP status of a load-more outcome. -/
def LoadMoreResult.statusOf : LoadMoreResult → Nat
  | .notFound => 404
  | .serverError _ => 500
  | .ok .. => 200

/-- The success flag of the JSON body of a load-more outcome. -/
def LoadMoreResult.successOf : LoadMoreResult → Bool
  | .ok .. => true
  | _ => false

/-- The /load-more handler of the first app.js revision.  ctxFile is
the search-context file for the requested id (none: no such file, the
explicit 404 branch).  scrape abstracts the scrapeSearchResults call
as a function of the term and the page.  An out-of-range term index
makes the property access on undefined throw, which the catch branch
turns into a 500. -/
def loadMoreA (ctxFile : Option SearchContext)
    (scrape : SearchTerm → Nat → List Product) : LoadMoreResult :=
  match ctxFile with
  | none => .notFound
  | some ctx =>
    let idx := ctx.currentTermIndex
    let pg := ctx.currentPage + 1
    match ctx.terms[idx]? with
    | none => .serverError "Cannot read properties of undefined"
    | some currentTerm =>
      let searchResult := scrape currentTerm pg
      let next : Nat × Nat × List Product :=
        if searchResult.isEmpty && decide ((idx : Int) < (ctx.terms.length : Int) - 1) then
          match ctx.terms[idx + 1]? with
          | some nextTerm => (idx + 1, 1, scrape nextTerm 1)
          | none => (idx + 1, 1, [])
        else (idx, pg, searchResult)
      let newCtx : SearchContext :=
        { ctx with results := ctx.results ++ next.2.2,
                   currentTermIndex := next.1, currentPage := next.2.1 }
      match ctx.terms[next.1]? with
      | none => .serverError "Cannot read properties of undefined"
      | some t2 => .ok next.2.2 ctx.totalResults t2.term next.2.1 newCtx

/-- The /load-more handler of the second app.js revision: no existence
check, so a missing context file makes readFileSync throw and the
catch branch answers 500; the term falls over even when no further
term exists. -/
def loadMoreB (ctxFile : Option SearchContext)
    (scrape : SearchTerm → Nat → List Product) : LoadMoreResult :=
  match ctxFile with
  | none => .serverError "ENOENT: no such file or directory"
  | some ctx =>
    let idx := ctx.currentTermIndex
    let pg := ctx.currentPage + 1
    match ctx.terms[idx]? with
    | none => .serverError "Cannot read properties of undefined"
    | some currentTerm =>
      let searchResult := scrape currentTerm pg
      let next : Nat × Nat × List Product :=
        if searchResult.isEmpty then
          match ctx.terms[idx + 1]? with
          | some nextTerm => (idx + 1, 1, scrape nextTerm 1)
          | none => (idx + 1, 1, searchResult)
        else (idx, pg, searchResult)
      let newCtx : SearchContext :=
        { ctx with results := ctx.results ++ next.2.2,
                   currentTermIndex := next.1, currentPage := next.2.1 }
      match ctx.terms[next.1]? with
      | none => .serverError "Cannot read properties of undefined"
      | some t2 => .ok next.2.2 ctx.totalResults t2.term next.2.1 newCtx

/-- C8 counterexample: in the second app.js revision a load-more on an
unknown search context answers with HTTP 500 (the generic catch-all),
not with a 404-equivalent response. -/
theorem C8_counterexample :
    (loadMoreB none fun _ _ => []).statusOf = 500
    ∧ (loadMoreB none fun _ _ => []).successOf = false := by
  exact ⟨rfl, rfl⟩

/-- C8 amended: a load-more whose searchContextId names no existing
context file never crashes and always answers success:false, but only
the first app.js revision answers 404; the second revision has no
existence check and its catch-all answers a 500 carrying the
file-system error. -/
theorem C8_amended (scrape : SearchTerm → Nat → List Product) :
    loadMoreA none scrape = .notFound
    ∧ (loadMoreA none scrape).statusOf = 404
    ∧ (loadMoreA none scrape).successOf = false
    ∧ (loadMoreB none scrape).statusOf = 500
    ∧ (loadMoreB none scrape).successOf = false := by
  exact ⟨rfl, rfl, rfl, rfl, rfl⟩

/-- Sample products for the load-more scenarios. -/
def prodX : Product :=
  { title := "X", price := "100 yen", url := "https://buyee.jp/item/auction/x1",
    time_remaining := "1 day", images := [] }

/-- Second sample product. -/
def prodY : Product :=
  { title := "Y", price := "200 yen", url := "https://buyee.jp/item/auction/y1",
    time_remaining := "2 days", images := [] }

/-- Third sample product. -/
def prodZ : Product :=
  { title := "Z", price := "300 yen", url := "https://buyee.jp/item/auction/z1",
    time_remaining := "3 days", images := [] }

/-- The single search term of the C9 scenario. -/
def termC9 : SearchTerm := { term := "cards", minPrice := "", maxPrice := "" }

/-- A search context whose accumulated results (2) already reach the
reported total (1). -/
def ctxC9 : SearchContext :=
  { terms := [termC9], currentTermIndex := 0, currentPage := 3,
    results := [prodX, prodY], totalResults := 1 }

/-- The site behaviour for the C9 scenario: page 4 of the term still
yields a product. -/
def scrapeC9 : SearchTerm → Nat → List Product :=
  fun _ pg => if pg = 4 then [prodZ] else []

/-- C9 counterexample: on a context whose running total (2 products)
has already reached the reported total-result count (1), load-more
does not terminate: it still fetches the next page, returns it with
success, and appends it to the context. -/
theorem C9_counterexample :
    ctxC9.totalResults ≤ ctxC9.results.length
    ∧ loadMoreA (some ctxC9) scrapeC9 =
        .ok [prodZ] 1 "cards" 4
          { terms := [termC9], currentTermIndex := 0, currentPage := 4,
            results := [prodX, prodY, prodZ], totalResults := 1 }
    ∧ (loadMoreA (some ctxC9) scrapeC9).successOf = true := by
  refine ⟨by decide, by decide, by decide⟩

/-- C9 amended: load-more advances to the next page of the current
term, and when that page yields zero products while a further term
exists it falls over to page 1 of the next term; there is no early
termination against the previously reported total-result count (the
handler never compares the accumulated count with it). -/
theorem C9_amended (ctx : SearchContext) (scrape : SearchTerm → Nat → List Product)
    (t : SearchTerm) (ht : ctx.terms[ctx.currentTermIndex]? = some t) :
    (scrape t (ctx.currentPage + 1) ≠ [] →
      loadMoreA (some ctx) scrape =
        .ok (scrape t (ctx.currentPage + 1)) ctx.totalResults t.term
          (ctx.currentPage + 1)
          { ctx with results := ctx.results ++ scrape t (ctx.currentPage + 1),
                     currentPage := ctx.currentPage + 1 })
    ∧ (∀ t2, scrape t (ctx.currentPage + 1) = [] →
        ctx.terms[ctx.currentTermIndex + 1]? = some t2 →
        loadMoreA (some ctx) scrape =
          .ok (scrape t2 1) ctx.totalResults t2.term 1
            { ctx with results := ctx.results ++ scrape t2 1,
                       currentTermIndex := ctx.currentTermIndex + 1,
                       currentPage := 1 }) := by
  constructor
  · intro hne
    have hemp : (scrape t (ctx.currentPage + 1)).isEmpty = false := by
      cases hsc : scrape t (ctx.currentPage + 1) with
      | nil => exact absurd hsc hne
      | cons a l => rfl
    simp only [loadMoreA, ht, hemp, Bool.false_and, Bool.false_eq_true, if_false]
  · intro t2 he h2
    have hlen : ctx.currentTermIndex + 1 < ctx.terms.length := by
      obtain ⟨h, -⟩ := List.getElem?_eq_some.mp h2
      exact h
    have hemp : (scrape t (ctx.currentPage + 1)).isEmpty = true := by
      simp [he]
    have hdec :
        decide ((ctx.currentTermIndex : Int) < (ctx.terms.length : Int) - 1) = true := by
      simp only [decide_eq_true_eq]
      omega
    simp only [loadMoreA, ht, hemp, hdec, Bool.and_self, if_true, h2]

/-- Witness for C9 amended: the nonempty-page branch at the concrete
context above. -/
theorem C9_amended_witness :
    loadMoreA (some ctxC9) scrapeC9 =
      .ok [prodZ] 1 "cards" 4
        { terms := [termC9], currentTermIndex := 0, currentPage := 4,
          results := [prodX, prodY, prodZ], totalResults := 1 } :=
  (C9_amended ctxC9 scrapeC9 termC9 rfl).1 (by decide)

/-! ### Bid ledger (bids.json) and its upsert -/

/-- One record of the bid ledger.  The part_001 revisions store a
title and thumbnail; where a revision stores fewer fields the extras
are none. -/
structure BidRecord where
  productUrl : String
  bidAmount : Nat
  timestamp : String
  title : Option String
  thumbnailUrl : Option String
deriving DecidableEq

/-- bidFileData.bids.findIndex(bid => bid.productUrl === productUrl):
index of the first record keyed by the URL. -/
def findBidIdx (url : String) : List BidRecord → Option Nat
  | [] => none
  | b :: bs =>
    if b.productUrl == url then some 0 else (findBidIdx url bs).map (· + 1)

/-- Replace the first record keyed by the URL in place, else push. -/
def upsertBid (l : List BidRecord) (r : BidRecord) : List BidRecord :=
  match findBidIdx r.productUrl l with
  | some i => l.set i r
  | none => l ++ [r]

/-- Number of ledger records keyed by the URL. -/
def keyCount (l : List BidRecord) (url : String) : Nat :=
  (l.filter fun b => b.productUrl == url).length

/-- keyCount on a cons whose head carries the key. -/
theorem keyCount_cons_pos (b : BidRecord) (bs : List BidRecord) (url : String)
    (hb : (b.productUrl == url) = true) :
    keyCount (b :: bs) url = keyCount bs url + 1 := by
  simp [keyCount, List.filter_cons, hb]

/-- keyCount on a cons whose head does not carry the key. -/
theorem keyCount_cons_neg (b : BidRecord) (bs : List BidRecord) (url : String)
    (hb : (b.productUrl == url) = false) :
    keyCount (b :: bs) url = keyCount bs url := by
  simp [keyCount, List.filter_cons, hb]

/-- Upsert replaces in place when the head carries the key. -/
theorem upsertBid_cons_pos (b : BidRecord) (bs : List BidRecord) (r : BidRecord)
    (hb : (b.productUrl == r.productUrl) = true) :
    upsertBid (b :: bs) r = r :: bs := by
  simp [upsertBid, findBidIdx, hb, List.set]

/-- Upsert skips a head that does not carry the key. -/
theorem upsertBid_cons_neg (b : BidRecord) (bs : List BidRecord) (r : BidRecord)
    (hb : (b.productUrl == r.productUrl) = false) :
    upsertBid (b :: bs) r = b :: upsertBid bs r := by
  unfold upsertBid
  simp only [findBidIdx, hb]
  cases hfb : findBidIdx r.productUrl bs with
  | none => simp [hfb]
  | some i => simp [hfb, List.set]

/-- findBidIdx misses exactly when no record carries the key. -/
theorem findBidIdx_eq_none_iff (url : String) (l : List BidRecord) :
    findBidIdx url l = none ↔ keyCount l url = 0 := by
  induction l with
  | nil => simp [findBidIdx, keyCount]
  | cons b bs ih =>
    cases hb : b.productUrl == url with
    | true =>
      rw [keyCount_cons_pos b bs url hb]
      simp [findBidIdx, hb]
    | false =>
      rw [keyCount_cons_neg b bs url hb, ← ih]
      simp only [findBidIdx, hb]
      cases findBidIdx url bs <;> simp

/-- Upserting leaves exactly one record with the upserted key, provided
the ledger held at most one before. -/
theorem keyCount_upsertBid (l : List BidRecord) (r : BidRecord)
    (h : keyCount l r.productUrl ≤ 1) :
    keyCount (upsertBid l r) r.productUrl = 1 := by
  induction l with
  | nil => simp [upsertBid, findBidIdx, keyCount]
  | cons b bs ih =>
    cases hb : b.productUrl == r.productUrl with
    | true =>
      rw [upsertBid_cons_pos b bs r hb]
      rw [keyCount_cons_pos r bs r.productUrl (by simp)]
      have hh := keyCount_cons_pos b bs r.productUrl hb
      omega
    | false =>
      rw [upsertBid_cons_neg b bs r hb]
      rw [keyCount_cons_neg b _ _ hb]
      apply ih
      have hh := keyCount_cons_neg b bs r.productUrl hb
      omega

/-- Upserting never duplicates: the length grows only when the key was
absent. -/
theorem length_upsertBid (l : List BidRecord) (r : BidRecord) :
    (upsertBid l r).length =
      if keyCount l r.productUrl = 0 then l.length + 1 else l.length := by
  unfold upsertBid
  cases hidx : findBidIdx r.productUrl l with
  | none =>
    rw [(findBidIdx_eq_none_iff r.productUrl l).mp hidx]
    simp
  | some i =>
    have hne : ¬ keyCount l r.productUrl = 0 := by
      intro h0
      rw [← findBidIdx_eq_none_iff r.productUrl l] at h0
      rw [h0] at hidx
      cases hidx
    simp [hne]

/-! ### Bid submission: the placeBid revisions -/

/-- The object a placeBid call resolves with (success flag and
human-readable message). -/
structure BidResult where
  success : Bool
  message : String
deriving DecidableEq

/-- A failure result ({success:false, message}). -/
def bidFail (m : String) : BidResult := { success := false, message := m }

/-- A success result ({success:true, message}). -/
def bidOk (m : String) : BidResult := { success := true, message := m }

@[simp] theorem bidFail_success (m : String) : (bidFail m).success = false := rfl

@[simp] theorem bidOk_success (m : String) : (bidOk m).success = true := rfl

/-- What one run of the first part_000 revision of placeBid produces:
the result object, the page.goto navigations issued in order, and the
bid-ledger file afterwards (none: bids.json absent). -/
structure BidOutcome where
  result : BidResult
  navLog : List String
  ledger : Option (List BidRecord)
deriving DecidableEq

/-- Environment of the first part_000 revision of placeBid. -/
structure BidEnv0 where
  loginFile : Option LoginData
  gotoProductOk : Bool
  cookieSyncOk : Bool
  gotoBidOk : Bool
  totalAmountOk : Bool
  fillOk : Bool
  navAfterSubmitOk : Bool
  urlAfterSubmit : String
deriving DecidableEq

/-- placeBid(productUrl, bidAmount), first revision in
src/unnamed/part_000 (lines 261-419): extracts the auction id with two
regex fallbacks before anything else, reads login.json, navigates to
the product page then to the constructed bid URL, fills and submits,
and succeeds only when the post-submit URL carries /bid/complete/ or
/complete/.  Every thrown error is caught and becomes a failure
result.  The revision never touches the bid ledger, which is threaded
through unchanged. -/
def placeBid_p0v1 (ledger : Option (List BidRecord)) (env : BidEnv0)
    (productUrl : String) (bidAmount : Nat) : BidOutcome :=
  match matchFullAuctionId productUrl with
  | none =>
    { result := bidFail "Failed to place bid: Invalid product URL format",
      navLog := [], ledger := ledger }
  | some auctionId =>
    match env.loginFile with
    | none =>
      { result := bidFail "Failed to place bid: cannot read login.json",
        navLog := [], ledger := ledger }
    | some _ =>
      if !env.gotoProductOk then
        { result := bidFail "Failed to place bid: product page navigation failed",
          navLog := [productUrl], ledger := ledger }
      else if !env.cookieSyncOk then
        { result := bidFail "Failed to place bid: cookie sync failed",
          navLog := [productUrl], ledger := ledger }
      else
        let bidUrl := "https://buyee.jp/bid/" ++ auctionId
        if !env.gotoBidOk then
          { result := bidFail "Failed to place bid: bid page navigation failed",
            navLog := [productUrl, bidUrl], ledger := ledger }
        else if !env.totalAmountOk then
          { result := bidFail "Failed to place bid: total amount call failed",
            navLog := [productUrl, bidUrl], ledger := ledger }
        else if !env.fillOk then
          { result := bidFail "Failed to place bid: filling the bid form failed",
            navLog := [productUrl, bidUrl], ledger := ledger }
        else if !env.navAfterSubmitOk then
          { result := bidFail "Failed to place bid: navigation after submit timed out",
            navLog := [productUrl, bidUrl], ledger := ledger }
        else if strHas env.urlAfterSubmit "/bid/complete/"
             || strHas env.urlAfterSubmit "/complete/" then
          { result := bidOk ("Successfully placed bid of " ++ toString bidAmount),
            navLog := [productUrl, bidUrl], ledger := ledger }
        else
          { result := bidFail "Failed to place bid: Navigation to completion page failed",
            navLog := [productUrl, bidUrl], ledger := ledger }

/-- C3 amended: the placeBid revisions that extract an auction id (the
part_000 revisions and the second part_001 revision) reject a product
URL that matches neither pattern synchronously — failure result,
descriptive message, and an empty navigation log — as shown here for
the first part_000 revision; the first and third part_001 revisions
perform no URL-shape validation at all and navigate regardless (see
the counterexample). -/
theorem C3_amended (ledger : Option (List BidRecord)) (env : BidEnv0)
    (productUrl : String) (bidAmount : Nat)
    (h : matchFullAuctionId productUrl = none) :
    (placeBid_p0v1 ledger env productUrl bidAmount).result.success = false
    ∧ (placeBid_p0v1 ledger env productUrl bidAmount).result.message =
        "Failed to place bid: Invalid product URL format"
    ∧ (placeBid_p0v1 ledger env productUrl bidAmount).navLog = [] := by
  unfold placeBid_p0v1
  rw [h]
  exact ⟨rfl, rfl, rfl⟩

/-- A fully permissive environment for the C3 witness. -/
def cEnvC3w : BidEnv0 :=
  { loginFile := some { cookies := [] }, gotoProductOk := true, cookieSyncOk := true,
    gotoBidOk := true, totalAmountOk := true, fillOk := true,
    navAfterSubmitOk := true, urlAfterSubmit := "https://buyee.jp/bid/complete/x" }

/-- Witness for C3 amended: a URL with neither an auction segment nor a
slash-id-question-mark segment is rejected without any navigation. -/
theorem C3_amended_witness :
    (placeBid_p0v1 (some []) cEnvC3w "https://buyee.jp/help" 500).result.success = false
    ∧ (placeBid_p0v1 (some []) cEnvC3w "https://buyee.jp/help" 500).result.message =
        "Failed to place bid: Invalid product URL format"
    ∧ (placeBid_p0v1 (some []) cEnvC3w "https://buyee.jp/help" 500).navLog = [] :=
  C3_amended (some []) cEnvC3w "https://buyee.jp/help" 500 (by decide)

/-- refreshLoginSession: re-runs login with the stored credentials,
throws when it fails or reports the two-factor signal, and (after a
successful login) runs checkLoginState purely for its log output. -/
def refreshLoginSession (fs : FsState) (env : LoginEnv) :
    Except String Unit × FsState :=
  match login fs env "teege@machen-sachen.com" "&7.s!M47&zprEv." with
  | (.error e, fs2) => (.error e, fs2)
  | (.ok r, fs2) =>
    if r.success then (.ok (), fs2)
    else (.error "Failed to refresh login session", fs2)

/-- Environment of the first part_001 revision of placeBid (lines
221-490): the login environment used when a refresh is needed, plus
the browser steps of the bid flow. -/
structure BidEnv1 where
  loginEnv : LoginEnv
  gotoProductOk : Bool
  bidButtonFound : Bool
  clickNavOk : Bool
  urlAfterClick : String
  priceInputFound : Bool
  fillEvalOk : Bool
  submitBtnFound : Bool
  submitNavOk : Bool
  urlAfterSubmit : String
deriving DecidableEq

/-- Result of the first part_001 revision of placeBid: the resolved
object, the session files afterwards, and the page.goto navigations. -/
structure BidOutcome1 where
  result : BidResult
  fs : FsState
  navLog : List String
deriving DecidableEq

/-- placeBid(productUrl, bidAmount), first revision in
src/unnamed/part_001: validates the session (refreshing once via
login when invalid), navigates to the product page, clicks a bid
button from a selector fallback list, rejects a login redirect, fills
the form, submits, and succeeds only when the page URL then contains
/bid/confirm.  It performs no auction-id extraction and never touches
the bid ledger. -/
def placeBid_p1v1 (fs : FsState) (env : BidEnv1) (productUrl : String)
    (bidAmount : Nat) : BidOutcome1 :=
  match (if checkLoginState fs.loginFile then ((Except.ok () : Except String Unit), fs)
         else
           match refreshLoginSession fs env.loginEnv with
           | (.error e, fs2) => (.error e, fs2)
           | (.ok _, fs2) =>
             if checkLoginState fs2.loginFile then (.ok (), fs2)
             else (.error "Failed to refresh login session", fs2)) with
  | (.error e, fs2) =>
    { result := bidFail ("Bid failed: " ++ e), fs := fs2, navLog := [] }
  | (.ok _, fs2) =>
    if !env.gotoProductOk then
      { result := bidFail "Bid failed: product page navigation failed",
        fs := fs2, navLog := [productUrl] }
    else if !env.bidButtonFound then
      { result := bidFail "Bid failed: Bid button not found with any selector",
        fs := fs2, navLog := [productUrl] }
    else if !env.clickNavOk then
      { result := bidFail "Bid failed: bid button click navigation failed",
        fs := fs2, navLog := [productUrl] }
    else if strHas env.urlAfterClick "signup/login" then
      { result := bidFail "Bid failed: Redirected to login page - authentication failed",
        fs := fs2, navLog := [productUrl] }
    else if !env.priceInputFound then
      { result := bidFail "Bid failed: price input not found",
        fs := fs2, navLog := [productUrl] }
    else if !env.fillEvalOk then
      { result := bidFail "Bid failed: filling the bid form failed",
        fs := fs2, navLog := [productUrl] }
    else if !env.submitBtnFound then
      { result := bidFail "Bid failed: submit button not found",
        fs := fs2, navLog := [productUrl] }
    else if !env.submitNavOk then
      { result := bidFail "Bid failed: navigation after submit timed out",
        fs := fs2, navLog := [productUrl] }
    else if strHas env.urlAfterSubmit "/bid/confirm" then
      { result := bidOk ("Bid of " ++ toString bidAmount ++ " placed successfully"),
        fs := fs2, navLog := [productUrl] }
    else
      { result := bidFail
          "Bid failed: Bid submission completed but confirmation page not reached",
        fs := fs2, navLog := [productUrl] }

/-- The bids.json file as the third part_001 revision sees it. -/
inductive BidsFileState where
  | missing
  | corrupt
  | ok (bids : List BidRecord)
deriving DecidableEq

/-- Environment of the third part_001 revision of placeBid (lines
1887-2060).  The in-page DOM cascades for the title and thumbnail are
abstracted as their resolved values. -/
structure BidEnv3 where
  loginFileExists : Bool
  gotoProductOk : Bool
  bidNowCount : Nat
  detailsTitle : String
  detailsThumb : Option String
  timeRemaining : String
  clickNavOk : Bool
  urlAfterClick : String
  priceInputVisible : Bool
deriving DecidableEq

/-- Result of the third part_001 revision of placeBid. -/
structure BidOutcome3 where
  result : BidResult
  navLog : List String
  bidsFile : BidsFileState
deriving DecidableEq

/-- placeBid(productUrl, bidAmount), third revision in
src/unnamed/part_001: no URL-shape validation; navigates to the
product page, requires a #bidNow button, extracts display details,
clicks through to the bid form, rejects a login redirect, fills the
amount, upserts the bid record into bids.json keyed by the product
URL, and returns success — without ever submitting the form or
checking a completion URL. -/
def placeBid_p1v3 (bids : BidsFileState) (env : BidEnv3) (productUrl : String)
    (bidAmount : Nat) : BidOutcome3 :=
  if !env.loginFileExists then
    { result := bidFail "Failed to place bid: cannot load login.json storage state",
      navLog := [], bidsFile := bids }
  else if !env.gotoProductOk then
    { result := bidFail "Failed to place bid: product page navigation failed",
      navLog := [productUrl], bidsFile := bids }
  else if env.bidNowCount = 0 then
    { result := { success := false,
                  message := "No \"Bid Now\" button found on the page" },
      navLog := [productUrl], bidsFile := bids }
  else if !env.clickNavOk then
    { result := bidFail "Failed to place bid: navigation after the bid click timed out",
      navLog := [productUrl], bidsFile := bids }
  else if strHas env.urlAfterClick "signup/login" then
    { result := bidFail "Failed to place bid: Session expired - redirected to login page",
      navLog := [productUrl], bidsFile := bids }
  else if !env.priceInputVisible then
    { result := bidFail "Failed to place bid: bid input field not visible",
      navLog := [productUrl], bidsFile := bids }
  else
    let bd : BidRecord :=
      { productUrl := productUrl, bidAmount := bidAmount,
        timestamp := strTrim env.timeRemaining,
        title := some env.detailsTitle, thumbnailUrl := env.detailsThumb }
    match bids with
    | .corrupt =>
      { result := bidFail "Failed to place bid: bids.json did not parse",
        navLog := [productUrl], bidsFile := .corrupt }
    | .missing =>
      { result := bidOk ("Bid of " ++ toString bidAmount ++ " placed successfully"),
        navLog := [productUrl], bidsFile := .ok (upsertBid [] bd) }
    | .ok l =>
      { result := bidOk ("Bid of " ++ toString bidAmount ++ " placed successfully"),
        navLog := [productUrl], bidsFile := .ok (upsertBid l bd) }

/-- A fully permissive environment for the third part_001 revision,
landing on a bid-form URL that carries no completion marker. -/
def cEnvC1 : BidEnv3 :=
  { loginFileExists := true, gotoProductOk := true, bidNowCount := 1,
    detailsTitle := "Item", detailsThumb := none, timeRemaining := "3 days",
    clickNavOk := true, urlAfterClick := "https://buyee.jp/bid/m987654321",
    priceInputVisible := true }

/-- C1 counterexample: the third part_001 revision of placeBid returns
success:true although the page URL after its last navigation carries
neither /bid/complete/ nor /confirm — it returns success without any
completion-URL check (it never even submits the form). -/
theorem C1_counterexample :
    (placeBid_p1v3 (.ok []) cEnvC1
        "https://buyee.jp/item/jdirectitems/auction/m987654321" 1000).result.success = true
    ∧ strHas cEnvC1.urlAfterClick "/bid/complete/" = false
    ∧ strHas cEnvC1.urlAfterClick "/confirm" = false := by
  exact ⟨by decide, by decide, by decide⟩

/-- C1 amended: the placeBid revisions that submit the form do verify
the post-submit URL — the first part_000 revision succeeds only when
it contains /bid/complete/ or /complete/, and the first part_001
revision only when it contains /bid/confirm — while the third part_001
revision returns success after filling the form without submitting and
performs no completion-marker check (see the counterexample). -/
theorem C1_amended :
    (∀ (ledger : Option (List BidRecord)) (env : BidEnv0) (url : String) (amt : Nat),
        (placeBid_p0v1 ledger env url amt).result.success = true →
        (strHas env.urlAfterSubmit "/bid/complete/"
          || strHas env.urlAfterSubmit "/complete/") = true)
    ∧ (∀ (fs : FsState) (env : BidEnv1) (url : String) (amt : Nat),
        (placeBid_p1v1 fs env url amt).result.success = true →
        strHas env.urlAfterSubmit "/bid/confirm" = true) := by
  constructor
  · intro ledger env url amt h
    unfold placeBid_p0v1 at h
    cases hm : matchFullAuctionId url with
    | none => rw [hm] at h; simp at h
    | some aid =>
      rw [hm] at h
      cases hl : env.loginFile with
      | none => rw [hl] at h; simp at h
      | some d =>
        rw [hl] at h
        repeat' split at h
        all_goals simp_all
  · intro fs env url amt h
    unfold placeBid_p1v1 at h
    repeat' split at h
    all_goals simp_all

/-- Session data satisfying checkLoginState. -/
def goodCookies : LoginData :=
  { cookies := [{ name := "otherbuyee", expired := false },
                { name := "userProfile", expired := false },
                { name := "userId", expired := false }] }

/-- Environment for the part_000 half of the C1 witness. -/
def cEnvC1a : BidEnv0 :=
  { loginFile := some { cookies := [] }, gotoProductOk := true, cookieSyncOk := true,
    gotoBidOk := true, totalAmountOk := true, fillOk := true,
    navAfterSubmitOk := true,
    urlAfterSubmit := "https://buyee.jp/bid/complete/777" }

/-- Environment for the part_001 half of the C1 witness. -/
def cEnvC1b : BidEnv1 :=
  { loginEnv := { gotoOk := true, fillOk := true, navOk := true,
                  postLoginUrl := "https://buyee.jp/", sessionState := goodCookies },
    gotoProductOk := true, bidButtonFound := true, clickNavOk := true,
    urlAfterClick := "https://buyee.jp/bid/55", priceInputFound := true,
    fillEvalOk := true, submitBtnFound := true, submitNavOk := true,
    urlAfterSubmit := "https://buyee.jp/bid/confirm/55" }

/-- Witness for C1 amended: both submitting revisions succeed on
completion URLs, so those URLs carry the respective markers. -/
theorem C1_amended_witness :
    (strHas "https://buyee.jp/bid/complete/777" "/bid/complete/"
      || strHas "https://buyee.jp/bid/complete/777" "/complete/") = true
    ∧ strHas "https://buyee.jp/bid/confirm/55" "/bid/confirm" = true :=
  ⟨C1_amended.1 (some []) cEnvC1a "https://buyee.jp/item/auction/q111" 750 (by decide),
   C1_amended.2 { loginFile := some goodCookies, tempFile := none } cEnvC1b
     "https://buyee.jp/item/auction/q112" 800 (by decide)⟩

/-- Environment for the C2 counterexample: the first part_000 revision
succeeds on a completion URL. -/
def cEnvC2 : BidEnv0 :=
  { loginFile := some { cookies := [] }, gotoProductOk := true, cookieSyncOk := true,
    gotoBidOk := true, totalAmountOk := true, fillOk := true,
    navAfterSubmitOk := true,
    urlAfterSubmit := "https://buyee.jp/bid/complete/42" }

/-- C2 counterexample: the first part_000 revision of placeBid returns
success:true while leaving the bid ledger untouched — starting from an
empty ledger, no record keyed by the product URL exists afterwards. -/
theorem C2_counterexample :
    (placeBid_p0v1 (some []) cEnvC2 "https://buyee.jp/item/auction/x123" 500).result.success = true
    ∧ (placeBid_p0v1 (some []) cEnvC2 "https://buyee.jp/item/auction/x123" 500).ledger = some []
    ∧ keyCount [] "https://buyee.jp/item/auction/x123" = 0 := by
  exact ⟨by decide, by decide, by decide⟩

/-- Helper for C2: a successful run of the ledger-writing revision
leaves exactly the upserted ledger. -/
theorem placeBid_p1v3_success_ledger (bids : List BidRecord) (env : BidEnv3)
    (url : String) (amt : Nat)
    (hs : (placeBid_p1v3 (.ok bids) env url amt).result.success = true) :
    (placeBid_p1v3 (.ok bids) env url amt).bidsFile =
      .ok (upsertBid bids
        { productUrl := url, bidAmount := amt,
          timestamp := strTrim env.timeRemaining,
          title := some env.detailsTitle, thumbnailUrl := env.detailsThumb }) := by
  unfold placeBid_p1v3 at hs ⊢
  repeat' split at hs
  all_goals simp_all

/-- C2 amended: in the ledger-writing part_001 revisions a successful
placeBid upserts the record keyed by the product URL: starting from a
ledger holding at most one record for that URL, exactly one record for
it exists afterwards, appended when it was absent and replaced in
place (same length) when present; the part_000 revisions return
success without writing the ledger (see the counterexample). -/
theorem C2_amended (bids : List BidRecord) (env : BidEnv3) (url : String) (amt : Nat)
    (hkey : keyCount bids url ≤ 1)
    (hs : (placeBid_p1v3 (.ok bids) env url amt).result.success = true) :
    ∃ l2, (placeBid_p1v3 (.ok bids) env url amt).bidsFile = .ok l2
      ∧ keyCount l2 url = 1
      ∧ l2.length = (if keyCount bids url = 0 then bids.length + 1 else bids.length) :=
  ⟨upsertBid bids
      { productUrl := url, bidAmount := amt,
        timestamp := strTrim env.timeRemaining,
        title := some env.detailsTitle, thumbnailUrl := env.detailsThumb },
   placeBid_p1v3_success_ledger bids env url amt hs,
   keyCount_upsertBid bids _ hkey,
   length_upsertBid bids _⟩

/-- A fully permissive environment for the C2 witness. -/
def cEnvC2w : BidEnv3 :=
  { loginFileExists := true, gotoProductOk := true, bidNowCount := 1,
    detailsTitle := "Widget", detailsThumb := none, timeRemaining := "1 day",
    clickNavOk := true, urlAfterClick := "https://buyee.jp/bid/w1",
    priceInputVisible := true }

/-- Witness for C2 amended: a first bid on an empty ledger leaves
exactly one record for the URL. -/
theorem C2_amended_witness :
    ∃ l2, (placeBid_p1v3 (.ok []) cEnvC2w "https://buyee.jp/item/auction/w1" 900).bidsFile = .ok l2
      ∧ keyCount l2 "https://buyee.jp/item/auction/w1" = 1
      ∧ l2.length =
          (if keyCount ([] : List BidRecord) "https://buyee.jp/item/auction/w1" = 0
           then ([] : List BidRecord).length + 1 else ([] : List BidRecord).length) :=
  C2_amended [] cEnvC2w "https://buyee.jp/item/auction/w1" 900 (by decide) (by decide)

/-- A fully permissive environment for the C3 counterexample. -/
def cEnvC3 : BidEnv3 :=
  { loginFileExists := true, gotoProductOk := true, bidNowCount := 1,
    detailsTitle := "Foo", detailsThumb := none, timeRemaining := "2 days",
    clickNavOk := true, urlAfterClick := "https://buyee.jp/bid/foo1",
    priceInputVisible := true }

/-- C3 counterexample: the third part_001 revision of placeBid performs
no URL-shape validation: on a URL matching neither auction-id pattern
it still navigates to the page (non-empty goto log) and can even
return success, instead of failing synchronously before any
navigation. -/
theorem C3_counterexample :
    matchAuctionId "https://example.com/listing/foo" = none
    ∧ matchFullAuctionId "https://example.com/listing/foo" = none
    ∧ (placeBid_p1v3 (.ok []) cEnvC3 "https://example.com/listing/foo" 300).navLog =
        ["https://example.com/listing/foo"]
    ∧ (placeBid_p1v3 (.ok []) cEnvC3 "https://example.com/listing/foo" 300).result.success = true := by
  exact ⟨by decide, by decide, by decide, by decide⟩

end Buyee
